import Mathlib

/-
Verification development for the NetEvo library (src/libnetevo/netevo).
Shallow embedding: doubles are modelled as rationals (no float rounding is
relevant to the properties below), C++ ints as Int, size_t as Nat with the
explicit conversions written out where a claim depends on them, std::map as
an association list with the standard-library insert semantics, and the
virtual collaborator objects (Mutate, Performance, EvoInitialStates, the
odeint kernels, the random source) as function parameters.
-/

namespace netevo

/- ===================== Simulated annealing (evolve_sa.cc) ============== -/

/-- Result record passed between the simulated-annealing functions
(evolve_sa.h lines 33-38, struct evolve_sa_result_t).  Q1 holds the current
graph score, Q2 the new graph score, dQ their difference and a the accept
flag. -/
structure EvolveSAResult where
  Q1 : ℚ
  Q2 : ℚ
  dQ : ℚ
  a  : Bool
deriving DecidableEq, Repr

/-- Parameter bundle of EvolveSA together with its collaborators, over an
abstract graph type G.  Fields mirror EvolveSAParams (evolve_sa.h lines
41-82); mutate models mMut.mutate (the in-place mutation applied to the
trial clone), wcc models System::weaklyConnectedComponents on the mutated
clone, perf models the EvolveSA::performance method as a function of the
System it is handed, rnd models the stream of draws from mParams.rnd()
(indexed by the iteration at which the draw is taken) and acceptProb,
newTemperature model the overridable virtual parameter functions. -/
structure SAConfig (G : Type) where
  mutate : G → G
  wcc : G → Nat
  perf : G → ℚ
  rnd : Int → ℚ
  acceptProb : ℚ → ℚ → ℚ
  newTemperature : ℚ → ℚ → ℚ → ℚ
  ensureWeaklyConnected : Bool
  mainTrials : Nat
  acceptTrials : Int
  acceptRunsNoChange : Int
  minTemp : ℚ
  maxIterations : Int

/-- Model of EvolveSA::trial (evolve_sa.cc lines 145-191).  The returned
pair is (the mutated clone newSys, the updated result record).  Exactly as
in the source, the performance that is stored into result.Q2 is computed
from the incumbent argument sys (line 166 passes sys, not *newSys), the
weak-connectivity guard returns early with result.a still false, an
improvement (dQ > 0) is accepted unconditionally, and otherwise the
probabilistic branch is only taken when temp is nonzero and positive
(lines 176-186). -/
def trial {G : Type} (c : SAConfig G) (temp : ℚ) (sys : G)
    (res : EvolveSAResult) (rndDraw : ℚ) : G × EvolveSAResult :=
  let res1 := { res with a := false }
  let newSys := c.mutate sys
  if c.ensureWeaklyConnected = true ∧ c.wcc newSys ≠ 1 then
    (newSys, res1)
  else
    let q2 := c.perf sys
    let res2 := { res1 with Q2 := q2, dQ := res1.Q1 - q2 }
    if res2.dQ > 0 then
      (newSys, { res2 with a := true })
    else if temp ≠ 0 ∧ temp > 0 then
      if rndDraw ≤ c.acceptProb res2.dQ temp then
        (newSys, { res2 with a := true })
      else
        (newSys, res2)
    else
      (newSys, res2)

/-- Model of the acceptance step of EvolveSA::evolve (evolve_sa.cc lines
112-122): on acceptance the clone replaces the incumbent and the running
scores Q1 and Q2 are swapped, otherwise the clone is discarded and the
incumbent kept. -/
def acceptStep {G : Type} (curSys : G) (t : G × EvolveSAResult) :
    G × EvolveSAResult :=
  if t.2.a = true then
    (t.1, { t.2 with Q1 := t.2.Q2, Q2 := t.2.Q1 })
  else
    (curSys, t.2)

/-- Walk state of the cooling loop of EvolveSA::evolve: the incumbent, the
shared result record, the iteration counter, the temperature and the
noChange variable, which the source declares as a C++ bool (evolve_sa.cc
line 32). -/
structure EvolveState (G : Type) where
  curSys : G
  res : EvolveSAResult
  iteration : Int
  temp : ℚ
  noChange : Bool

/-- Model of the inner trial loop of EvolveSA::evolve (evolve_sa.cc lines
100-130), structurally recursive on the number of remaining main trials.
Each pass increments the iteration counter, breaks when it exceeds
maxIterations, runs one trial, applies the acceptance step, counts accepts
and breaks early once accepts reaches acceptTrials.  The observer call of
line 125 records the incumbent and does not influence the walk, so it is
not modelled here. -/
def innerTrials {G : Type} (c : SAConfig G) :
    Nat → Nat → EvolveState G → Nat × EvolveState G
  | 0, accepts, st => (accepts, st)
  | n + 1, accepts, st =>
    let iter := st.iteration + 1
    if iter > c.maxIterations then
      (accepts, { st with iteration := iter })
    else
      let t := trial c st.temp st.curSys st.res (c.rnd iter)
      let next := acceptStep st.curSys t
      let st2 : EvolveState G :=
        { st with curSys := next.1, res := next.2, iteration := iter }
      let accepts2 := if next.2.a = true then accepts + 1 else accepts
      if (accepts2 : Int) ≥ c.acceptTrials then
        (accepts2, st2)
      else
        innerTrials c n accepts2 st2

/-- Integer value of the noChange variable when it is read back in the
loop guard: C++ converts the bool to 0 or 1. -/
def noChangeInt (b : Bool) : Int := if b then 1 else 0

/-- One outer iteration of the cooling loop (the body of the while loop,
evolve_sa.cc lines 98-137): run the inner trials, then update noChange --
the source increments a C++ bool when no trial was accepted, which sets it
to true (saturating at 1), and assigns 0 (false) otherwise -- and finally
update the temperature through the cooling schedule. -/
def outerStep {G : Type} (c : SAConfig G) (st : EvolveState G) :
    EvolveState G :=
  let r := innerTrials c c.mainTrials 0 st
  { r.2 with
    noChange := if r.1 = 0 then true else false,
    temp := c.newTemperature r.2.temp r.2.res.Q1 r.2.res.Q2 }

/-- Model of the cooling while loop of EvolveSA::evolve (evolve_sa.cc
lines 94-138), fuelled because the guard need not ever fail: the loop
continues while noChange (converted to 0 or 1) is at most
acceptRunsNoChange, the temperature exceeds minTemp and the iteration
count is at most maxIterations.  Returns none when the fuel is exhausted
with the loop still running, some finalState when the guard fails. -/
def evolveLoop {G : Type} (c : SAConfig G) :
    Nat → EvolveState G → Option (EvolveState G)
  | 0, _ => none
  | fuel + 1, st =>
    if noChangeInt st.noChange ≤ c.acceptRunsNoChange ∧
        st.temp > c.minTemp ∧ st.iteration ≤ c.maxIterations then
      evolveLoop c fuel (outerStep c st)
    else
      some st

/-- Truncation of a real (double) value to a C++ int: rounding toward
zero, as performed by the implicit conversion in qSum += ... -/
def cppIntOfDouble (q : ℚ) : Int := if 0 ≤ q then q.floor else q.ceil

/-- Model of the accumulation loop of EvolveSA::performance (evolve_sa.cc
lines 221-228): qSum is declared int (line 199), so each compound
assignment qSum += mQ.performance(...) truncates the running double sum
back to an integer. -/
def qSumFold (scores : List ℚ) : Int :=
  scores.foldl (fun acc q => cppIntOfDouble ((acc : ℚ) + q)) 0

/-- Conversion of a C++ int to size_t (64-bit unsigned), as performed by
the usual arithmetic conversions in qSum / initialConds.size(). -/
def sizeTOfInt (i : Int) : Nat := (i % (2 : Int) ^ 64).toNat

/-- Fixed very poor starting performance of EvolveSA::performance
(evolve_sa.cc line 196; smaller is better). -/
def badPerf : ℚ := 100000000000

/-- Performance type tag (evolve.h lines 33-37). -/
inductive PerformanceType
  | topologyOnly
  | dynamicsOnly
  | topologyAndDynamics
deriving DecidableEq

/-- Model of EvolveSA::performance (evolve_sa.cc lines 193-240).
topScore models mQ.performance(sys, NULL) for the topology-only branch;
dynScores models the per-initial-condition values mQ.performance(sys,
&dyn), one for each initial state vector the EvoInitialStates collaborator
supplied.  In the dynamics branch the source sums the scores into the int
variable qSum (truncating at every step) and divides by
initialConds.size(), an int-by-size_t division performed in unsigned
64-bit arithmetic; with no initial conditions the initial badPerf value is
returned. -/
def performance (ptype : PerformanceType) (topScore : ℚ)
    (dynScores : List ℚ) : ℚ :=
  match ptype with
  | .topologyOnly => topScore
  | _ =>
    if dynScores.length > 0 then
      ((sizeTOfInt (qSumFold dynScores) / dynScores.length : Nat) : ℚ)
    else
      badPerf

/-- Arithmetic mean of a list of scores, as the specification describes
the dynamics-dependent performance. -/
def listMean (xs : List ℚ) : ℚ := xs.sum / (xs.length : ℚ)

/- ===================== Simulation strategies (simulate.cc) ============= -/

/-- Graph with per-entity dynamics as the simulators see it.  nodeStates
and arcStates are the per-node and per-arc state-slot widths (mNodeStates,
mArcStates); nodes and arcs hold, in iteration order, each entity's
dynamics update function fn(x, dx, t), which receives the read-only state
snapshot x and the current output buffer dx and returns the updated
buffer.  The dense state indices and their validity flags are modelled
separately (SysV below) because the simulators refresh them after the size
check and before any stepping. -/
structure SysDyn where
  nodeStates : Nat
  arcStates : Nat
  nodes : List (List ℚ → List ℚ → ℚ → List ℚ)
  arcs : List (List ℚ → List ℚ → ℚ → List ℚ)

/-- Total number of states of a System (system.h line 368 and the states
expression recomputed at the top of every simulate method):
nodeCount * nodeStateWidth + arcCount * arcStateWidth. -/
def totalStatesD (s : SysDyn) : Nat :=
  s.nodes.length * s.nodeStates + s.arcs.length * s.arcStates

/-- Model of System::operator() (system.cc lines 30-43): every node
updates the buffer, then every arc, each loop guarded by its state width
being positive. -/
def sysEval (s : SysDyn) (x dx : List ℚ) (t : ℚ) : List ℚ :=
  let dx1 := if s.nodeStates > 0 then s.nodes.foldl (fun d f => f x d t) dx else dx
  if s.arcStates > 0 then s.arcs.foldl (fun d f => f x d t) dx1 else dx1

/-- Callback events a simulate call can emit, in order: the three change
log calls and the observer call made for every accepted sample. -/
inductive SimEvent
  | logNewState : List ℚ → SimEvent
  | logEndStep : SimEvent
  | logCommit : SimEvent
  | observe : List ℚ → ℚ → SimEvent
deriving DecidableEq, Repr

/-- Events emitted for one accepted sample y at time t: logger.newState,
logger.endStep(SIM_STEP), logger.commit, then obs(y, t) (simulate.cc
lines 50-53 and 61-66). -/
def emitSample (y : List ℚ) (t : ℚ) : List SimEvent :=
  [SimEvent.logNewState y, SimEvent.logEndStep, SimEvent.logCommit,
   SimEvent.observe y t]

/-- Outcome of one simulate call: whether the size-mismatch error was
reported, the emitted callback events in order, and the value left in the
caller's initial vector when the call returns (the output parameter). -/
structure SimResult where
  sizeError : Bool
  events : List SimEvent
  final : List ℚ
deriving DecidableEq, Repr

/-- Observer calls among a list of events, each as a (state, time) pair. -/
def obsCalls (es : List SimEvent) : List (List ℚ × ℚ) :=
  es.filterMap fun e =>
    match e with
    | SimEvent.observe x t => some (x, t)
    | _ => none

/-- Model of the time-stepping loop of SimulateMap::simulate (simulate.cc
lines 56-79): the first argument counts the remaining steps, the second is
the current value of t; the two buffers y1 and y2 ping-pong exactly as in
the source (even t writes y2 from y1, odd t writes y1 from y2).  Returns
the emitted events together with the final values of y1 and y2. -/
def mapSteps (s : SysDyn) :
    Nat → Nat → List ℚ → List ℚ → List SimEvent × List ℚ × List ℚ
  | 0, _, y1, y2 => ([], y1, y2)
  | n + 1, t, y1, y2 =>
    if t % 2 = 0 then
      let y2n := sysEval s y1 y2 (t : ℚ)
      let r := mapSteps s n (t + 1) y1 y2n
      (emitSample y2n (t : ℚ) ++ r.1, r.2)
    else
      let y1n := sysEval s y2 y1 (t : ℚ)
      let r := mapSteps s n (t + 1) y1n y2
      (emitSample y1n (t : ℚ) ++ r.1, r.2)

/-- Model of SimulateMap::simulate (simulate.cc lines 30-83) for a
nonnegative integer horizon tMax (the source truncates its double tMax
argument to an int step count).  The size check (lines 37-40,
size < states or size > states, i.e. size differing from states) reports
the error and performs no work; otherwise the initial sample is emitted at
t = 0, the stepping loop runs for t = 1..tMax, and the caller's initial
vector is overwritten with whichever buffer holds the final state (line
82, chosen by parity of t = tMax + 1 after the loop). -/
def simulateMap (s : SysDyn) (tMax : Nat) (initial : List ℚ) : SimResult :=
  let states := s.nodes.length * s.nodeStates + s.arcs.length * s.arcStates
  if initial.length ≠ states then
    { sizeError := true, events := [], final := initial }
  else
    let r := mapSteps s tMax 1 initial initial
    { sizeError := false,
      events := emitSample initial 0 ++ r.1,
      final := if (tMax + 1) % 2 = 0 then r.2.1 else r.2.2 }

/-- Fixed steppers of SimulateOdeFixed (simulate.h lines 32-35). -/
inductive FixedStepType
  | rk4
  | adamBashMoul
deriving DecidableEq

/-- Adaptive steppers of SimulateOdeConst and SimulateOdeAdaptive
(simulate.h lines 38-42). -/
inductive AdaptiveStepType
  | rkCashKarp54
  | rkDopri5
  | rkDopri5Dense
deriving DecidableEq

/-- Model of SimulateOdeFixed::simulate (simulate.cc lines 85-115).  The
odeint integrate_const kernel is the external collaborator integ, which
receives the selected stepper, the step size, the system, tMax and the
initial state and returns the events its ObserverPassThrough emitted plus
the final state.  The size check precedes everything else; only when it
passes are the state IDs refreshed and the kernel invoked. -/
def simulateOdeFixed
    (integ : FixedStepType → ℚ → SysDyn → ℚ → List ℚ → List SimEvent × List ℚ)
    (stepper : FixedStepType) (stepSize : ℚ) (s : SysDyn) (tMax : ℚ)
    (initial : List ℚ) : SimResult :=
  if initial.length ≠ totalStatesD s then
    { sizeError := true, events := [], final := initial }
  else
    let r := integ stepper stepSize s tMax initial
    { sizeError := false, events := r.1, final := r.2 }

/-- Model of SimulateOdeConst::simulate (simulate.cc lines 118-152), the
adaptive-stepper variant with a fixed output cadence; the external
integrate_const kernel receives the stepper selection, the two error
tolerances, the output step, the system, tMax and the initial state. -/
def simulateOdeConst
    (integ : AdaptiveStepType → ℚ → ℚ → ℚ → SysDyn → ℚ → List ℚ →
      List SimEvent × List ℚ)
    (stepper : AdaptiveStepType) (epsAbs epsRel outputStep : ℚ) (s : SysDyn)
    (tMax : ℚ) (initial : List ℚ) : SimResult :=
  if initial.length ≠ totalStatesD s then
    { sizeError := true, events := [], final := initial }
  else
    let r := integ stepper epsAbs epsRel outputStep s tMax initial
    { sizeError := false, events := r.1, final := r.2 }

/-- Model of SimulateOdeAdaptive::simulate (simulate.cc lines 154-188),
the fully adaptive variant; the external integrate_adaptive kernel
receives the stepper selection, the tolerances, the advisory initial step,
the system, tMax and the initial state. -/
def simulateOdeAdaptive
    (integ : AdaptiveStepType → ℚ → ℚ → ℚ → SysDyn → ℚ → List ℚ →
      List SimEvent × List ℚ)
    (stepper : AdaptiveStepType) (epsAbs epsRel initialStep : ℚ) (s : SysDyn)
    (tMax : ℚ) (initial : List ℚ) : SimResult :=
  if initial.length ≠ totalStatesD s then
    { sizeError := true, events := [], final := initial }
  else
    let r := integ stepper epsAbs epsRel initialStep s tMax initial
    { sizeError := false, events := r.1, final := r.2 }

/- ============ Dynamics registry (System::addNodeDynamic) =============== -/

/-- Observable part of a dynamics descriptor: its identity string and its
declared state count (NodeDynamic and ArcDynamic, system.h lines 53-68).
Two registered descriptor objects with the same name may still differ, so
the record carries the state count to tell them apart. -/
structure DynDescriptor where
  name : String
  states : Nat
deriving DecidableEq, Repr

/-- Insertion into a std::map, as mNodeDynamics.insert(pair(...)) performs
it (system.cc line 46): when the key is already present, insert leaves the
existing mapping untouched; otherwise the pair is added. -/
def stdMapInsert (m : List (String × DynDescriptor)) (k : String)
    (v : DynDescriptor) : List (String × DynDescriptor) :=
  if (m.lookup k).isSome then m else m ++ [(k, v)]

/-- Registry half of a System: the name-to-descriptor map together with
the owning graph's per-entity state width (mNodeDynamics and mNodeStates,
or mArcDynamics and mArcStates). -/
structure DynRegistry where
  reg : List (String × DynDescriptor)
  statesWidth : Nat
deriving DecidableEq, Repr

/-- Model of System::addNodeDynamic (system.cc lines 45-48): insert the
descriptor into the registry keyed by its identity string via std::map
insert, and raise the state width when the descriptor declares more
states.  System::addArcDynamic (lines 50-53) is letter-for-letter the same
on the arc registry and arc width, so this single definition models
both. -/
def addNodeDynamic (r : DynRegistry) (d : DynDescriptor) : DynRegistry :=
  { reg := stdMapInsert r.reg d.name d,
    statesWidth := if d.states > r.statesWidth then d.states else r.statesWidth }

/- ================= ChangeLogSet fan-out loops (system.cc) ============== -/

/-- Model of the fan-out loop shared by every ChangeLogSet operation
(system.cc lines 732-790): for (int i = 0; mLoggers.size(); ++i) call
sub-logger i.  The loop condition is the container size itself, not a
comparison with i, so it is the truth value of numLoggers being nonzero.
The function returns the list of sub-logger indices invoked, in order, or
none when the given fuel runs out with the loop still running.  All ten
operations (addNode, addArc, the two erase and two update overloads,
newState, endStep, rollback, commit) repeat this loop verbatim, so one
definition models them all. -/
def fanOutFrom (numLoggers : Nat) : Nat → Nat → Option (List Nat)
  | 0, _ => none
  | fuel + 1, i =>
    if numLoggers ≠ 0 then
      (fanOutFrom numLoggers fuel (i + 1)).map (fun rest => i :: rest)
    else
      some []

/-- Index trace of one ChangeLogSet operation with numLoggers registered
sub-loggers, run with the given fuel. -/
def changeLogSetCalls (numLoggers fuel : Nat) : Option (List Nat) :=
  fanOutFrom numLoggers fuel 0

/- ============ State-index validity (System, system.cc) ================= -/

/-- Validity-relevant part of a System: the node and arc handle lists in
iteration order, the dense index maps mNodeIDs and mArcIDs, the two
validity flags, and the counters supplying fresh handles. -/
structure SysV where
  nodes : List Nat
  arcs : List Nat
  nodeIDs : List (Nat × Nat)
  arcIDs : List (Nat × Nat)
  validNodeIDs : Bool
  validArcIDs : Bool
  nextNode : Nat
  nextArc : Nat
deriving DecidableEq, Repr

/-- Model of System::validStateIDs (system.cc lines 694-696). -/
def validStateIDs (s : SysV) : Bool := s.validNodeIDs && s.validArcIDs

/-- Dense renumbering 0..n-1 of a handle list in iteration order. -/
def renumber (xs : List Nat) : List (Nat × Nat) :=
  xs.enum.map (fun p => (p.2, p.1))

/-- Model of System::refreshStateIDs (system.cc lines 698-718): when a
flag is false the corresponding map is recomputed; the flags themselves
are never written. -/
def refreshStateIDs (s : SysV) : SysV :=
  let s1 := if s.validNodeIDs = false then { s with nodeIDs := renumber s.nodes } else s
  if s1.validArcIDs = false then { s1 with arcIDs := renumber s1.arcs } else s1

/-- Model of System::addNode (system.cc lines 55-68) restricted to the
fields of SysV: a fresh handle is appended and mValidNodeIDs is set
false. -/
def addNode (s : SysV) : SysV :=
  { s with nodes := s.nodes ++ [s.nextNode], nextNode := s.nextNode + 1,
           validNodeIDs := false }

/-- Model of System::addArc (system.cc lines 76-85) restricted to the
fields of SysV: a fresh handle is appended and mValidArcIDs is set
false. -/
def addArc (s : SysV) : SysV :=
  { s with arcs := s.arcs ++ [s.nextArc], nextArc := s.nextArc + 1,
           validArcIDs := false }

/-- Model of System::clear (system.h lines 195-204): the graph is emptied
and both validity flags are set false. -/
def clearSys (s : SysV) : SysV :=
  { s with nodes := [], arcs := [], validNodeIDs := false,
           validArcIDs := false }

/-- Model of System::copySystem (system.h lines 272-325) restricted to the
fields of SysV: the structure is taken from the source System and both
validity flags are set false (lines 316-317).  The copyDigraph overloads
(lines 233-234 and 265-266) end the same way. -/
def copySystem (src : SysV) (_s : SysV) : SysV :=
  { src with validNodeIDs := false, validArcIDs := false }

/-- Operations of the System interface that read or write the validity
flags; composite generators (openFromGML, randomGraph, ringGraph) are
sequences of these. -/
inductive SysOp
  | addNode
  | addArc
  | clear
  | copySys (src : SysV)
  | refresh

/-- Whether an operation is one of the structural mutations named by the
claim: addNode, addArc, clear, or a copy into the System. -/
def SysOp.structural : SysOp → Bool
  | .addNode => true
  | .addArc => true
  | .clear => true
  | .copySys _ => true
  | .refresh => false

/-- Apply one operation to the System model. -/
def applyOp (s : SysV) : SysOp → SysV
  | .addNode => addNode s
  | .addArc => addArc s
  | .clear => clearSys s
  | .copySys src => copySystem src s
  | .refresh => refreshStateIDs s

/-- Apply a sequence of operations left to right. -/
def applyOps (s : SysV) (ops : List SysOp) : SysV :=
  ops.foldl applyOp s

/- ================= GML persistence round trip (system.cc) ============== -/

/-- Node data record of a System (struct NodeData, system.h lines 94-101),
with the NodeDynamic pointer represented, as the GML codec itself does, by
the identity string of the registered descriptor. -/
structure NodeDataG where
  key : Int
  name : String
  posX : ℚ
  posY : ℚ
  posZ : ℚ
  properties : List ℚ
  dynName : String
  dynParams : List ℚ
deriving DecidableEq, Repr

/-- Arc data record of a System (struct ArcData, system.h lines 104-110),
with its endpoints given as positions into the node list in iteration
order. -/
structure ArcDataG where
  src : Nat
  tgt : Nat
  name : String
  weight : ℚ
  properties : List ℚ
  dynName : String
  dynParams : List ℚ
deriving DecidableEq, Repr

/-- System contents relevant to the GML round trip. -/
structure SysG where
  nodes : List NodeDataG
  arcs : List ArcDataG
  nextKey : Int
deriving DecidableEq, Repr

/-- One node entry of a written GML file (saveToGML, system.cc lines
158-186): id, key, label, graphics position, the comma-joined properties,
the dynamics name and the comma-joined parameters. -/
structure GmlNode where
  id : Nat
  key : Int
  label : String
  gx : ℚ
  gy : ℚ
  gz : ℚ
  properties : List ℚ
  dynName : String
  dynParams : List ℚ
deriving DecidableEq, Repr

/-- One edge entry of a written GML file (saveToGML, system.cc lines
189-213). -/
structure GmlEdge where
  source : Nat
  target : Nat
  label : String
  weight : ℚ
  properties : List ℚ
  dynName : String
  dynParams : List ℚ
deriving DecidableEq, Repr

/-- Structured content of a GML file written by saveToGML. -/
structure GmlFile where
  directed : Bool
  nodes : List GmlNode
  edges : List GmlEdge
deriving DecidableEq, Repr

/-- Model of System::saveToGML (system.cc lines 131-220): nodes are
written in iteration order with ids 0..n-1 (the nodeMap), every field of
each record is emitted, and edges follow with their endpoints written as
those ids. -/
def saveToGML (s : SysG) : GmlFile :=
  { directed := true,
    nodes := s.nodes.enum.map fun p =>
      { id := p.1, key := p.2.key, label := p.2.name,
        gx := p.2.posX, gy := p.2.posY, gz := p.2.posZ,
        properties := p.2.properties, dynName := p.2.dynName,
        dynParams := p.2.dynParams },
    edges := s.arcs.map fun a =>
      { source := a.src, target := a.tgt, label := a.name,
        weight := a.weight, properties := a.properties,
        dynName := a.dynName, dynParams := a.dynParams } }

/-- Fields of a loaded node after the attribute walk of openFromGML
(system.cc lines 363-449): addNode() creates the node, then every
attribute present in the record overwrites the created defaults -- label,
key, graphics, properties, dynName (looked up in the pre-registered
registry) and dynParams.  A file written by saveToGML carries all of
them. -/
def loadNodeRec (r : GmlNode) : NodeDataG :=
  { key := r.key, name := r.label, posX := r.gx, posY := r.gy, posZ := r.gz,
    properties := r.properties, dynName := r.dynName,
    dynParams := r.dynParams }

/-- Model of the key fix-up loop of openFromGML (system.cc lines 451-457):
int curKey = 0; for every node, the node's key is assigned curKey and
mNextKey is raised to curKey if smaller.  curKey is never incremented in
the source, so it stays the constant carried here as an argument.  Returns
the rewritten node list and the resulting mNextKey. -/
def fixKeysLoop : List NodeDataG → Int → Int → List NodeDataG × Int
  | [], _, nextKey => ([], nextKey)
  | nd :: rest, curKey, nextKey =>
    let nd2 := { nd with key := curKey }
    let nextKey2 := if nextKey < curKey then curKey else nextKey
    let r := fixKeysLoop rest curKey nextKey2
    (nd2 :: r.1, r.2)

/-- Position of the node entry carrying a given id (the id_2_node map of
openFromGML, system.cc lines 355-367 and 462-463; saveToGML writes
distinct ids, so first match suffices). -/
def idIndex (ns : List GmlNode) (i : Nat) : Nat :=
  ns.findIdx (fun r => r.id == i)

/-- Model of System::openFromGML (system.cc lines 222-529) applied to a
fresh System (mNextKey starts at 0; the source never clears pre-existing
content, and the claim loads into a fresh System).  Every node entry is
added and its attributes set, then the key fix-up loop runs with curKey =
0 and mNextKey equal to the number of added nodes (addNode incremented it
once per node before the parsed key overwrote the field), followed by
mNextKey++; then the edges are added with their endpoints resolved through
id_2_node, and the state IDs are refreshed (not modelled in SysG). -/
def openFromGML (g : GmlFile) : SysG :=
  let loaded := g.nodes.map loadNodeRec
  let fixedUp := fixKeysLoop loaded 0 (loaded.length : Int)
  { nodes := fixedUp.1,
    arcs := g.edges.map fun r =>
      { src := idIndex g.nodes r.source, tgt := idIndex g.nodes r.target,
        name := r.label, weight := r.weight, properties := r.properties,
        dynName := r.dynName, dynParams := r.dynParams },
    nextKey := fixedUp.2 + 1 }

/-- Save followed by load into a fresh System with the same dynamics
pre-registered. -/
def roundTripGML (s : SysG) : SysG := openFromGML (saveToGML s)

/- ===================== Concrete instances used below =================== -/

/-- Search configuration over graphs numbered by Nat whose mutation always
produces graph 1 and whose performance gives the incumbent graph 0 a score
of 5 and every other graph a score of 3: the mutated clone is a strict
improvement, so a correct trial would see Q2 = 3. -/
def c1Config : SAConfig Nat :=
  { mutate := fun _ => 1, wcc := fun _ => 1,
    perf := fun g => if g = 0 then 5 else 3,
    rnd := fun _ => 1, acceptProb := fun _ _ => 0,
    newTemperature := fun t _ _ => t,
    ensureWeaklyConnected := false, mainTrials := 1, acceptTrials := 10,
    acceptRunsNoChange := 10, minTemp := 0, maxIterations := 1000 }

/-- Result record entering the trial, with Q1 the incumbent score 5. -/
def c1Res0 : EvolveSAResult := { Q1 := 5, Q2 := 0, dQ := 0, a := false }

/-- Search configuration in which no trial is ever accepted: performance
is constant (so dQ = 0, never a strict improvement) and the random draw 1
always exceeds the configured acceptance probability 0. -/
def c2Config : SAConfig Nat :=
  { mutate := fun g => g, wcc := fun _ => 1, perf := fun _ => 0,
    rnd := fun _ => 1, acceptProb := fun _ _ => 0,
    newTemperature := fun t _ _ => t,
    ensureWeaklyConnected := false, mainTrials := 1, acceptTrials := 10,
    acceptRunsNoChange := 10, minTemp := 0, maxIterations := 1000 }

/-- Same non-accepting search with zero main trials per outer iteration, a
constant cooling schedule and the streak threshold set to 1: every outer
iteration accepts nothing, so per the specification the streak should
exceed 1 after two iterations and stop the loop. -/
def c2ConfigZero : SAConfig Nat :=
  { mutate := fun g => g, wcc := fun _ => 1, perf := fun _ => 0,
    rnd := fun _ => 1, acceptProb := fun _ _ => 0,
    newTemperature := fun t _ _ => t,
    ensureWeaklyConnected := false, mainTrials := 0, acceptTrials := 10,
    acceptRunsNoChange := 1, minTemp := 0, maxIterations := 1000 }

/-- Walk state at the top of the cooling loop. -/
def c2St0 : EvolveState Nat :=
  { curSys := 0, res := { Q1 := 0, Q2 := 0, dQ := 0, a := false },
    iteration := 0, temp := 1, noChange := false }

/-- System with two nodes whose keys are 0 and 1. -/
def c4Sys : SysG :=
  { nodes :=
      [{ key := 0, name := "a", posX := 0, posY := 0, posZ := 0,
         properties := [], dynName := "NoNodeDynamic", dynParams := [] },
       { key := 1, name := "b", posX := 0, posY := 0, posZ := 0,
         properties := [2], dynName := "NoNodeDynamic", dynParams := [] }],
    arcs := [], nextKey := 2 }

/-- First descriptor registered under the identity string A. -/
def c5d1 : DynDescriptor := { name := "A", states := 1 }

/-- Second, different descriptor with the same identity string A. -/
def c5d2 : DynDescriptor := { name := "A", states := 3 }

/-- Registry after registering c5d1 into an empty registry. -/
def c5Reg1 : DynRegistry := addNodeDynamic { reg := [], statesWidth := 0 } c5d1

/-- System with one node carrying one state, so that its total state count
is 1 and the empty vector has the wrong size. -/
def c7Sys : SysDyn :=
  { nodeStates := 1, arcStates := 0, nodes := [fun _ dx _ => dx], arcs := [] }

/-- Search configuration whose mutation always disconnects the graph (two
weakly connected components) while improving the score, with the
connectivity requirement switched on. -/
def c8Config : SAConfig Nat :=
  { mutate := fun _ => 1, wcc := fun g => if g = 1 then 2 else 1,
    perf := fun g => if g = 0 then 5 else 3,
    rnd := fun _ => 0, acceptProb := fun _ _ => 1,
    newTemperature := fun t _ _ => t,
    ensureWeaklyConnected := true, mainTrials := 1, acceptTrials := 10,
    acceptRunsNoChange := 10, minTemp := 0, maxIterations := 1000 }

/-- System with one node whose dynamics declare zero states (and no arcs),
so the total state count is 0 and the state vector is empty. -/
def c9Sys : SysDyn :=
  { nodeStates := 0, arcStates := 0, nodes := [fun _ dx _ => dx], arcs := [] }

/-- System model whose state IDs are currently valid. -/
def c10S0 : SysV :=
  { nodes := [7, 8], arcs := [4], nodeIDs := [(7, 0), (8, 1)],
    arcIDs := [(4, 0)], validNodeIDs := true, validArcIDs := true,
    nextNode := 9, nextArc := 5 }

/- ============================ Theorems ================================= -/

/-- C1.  EvolveSA::trial computes the score Q2 that enters the acceptance
decision from the pre-mutation incumbent, not from the mutated clone: at a
trial whose clone scores 3 while the incumbent scores 5, the Q2 stored by
the trial is 5, the incumbent's performance, and differs from the clone's
performance 3.  This refutes the claim that Q2 is the performance of the
mutated clone produced by the trial. -/
theorem trial_Q2_scores_incumbent_not_clone :
    (trial c1Config 1 0 c1Res0 1).2.Q2 = c1Config.perf 0 ∧
    c1Config.perf (trial c1Config 1 0 c1Res0 1).1 = 3 ∧
    (trial c1Config 1 0 c1Res0 1).2.Q2 ≠
      c1Config.perf (trial c1Config 1 0 c1Res0 1).1 := by
  refine ⟨?_, ?_, ?_⟩ <;> norm_num [trial, c1Config, c1Res0]

/-- Helper: Batteries Rat.floor agrees with the floor of the FloorRing
instance, which norm_num can evaluate through Int.floor lemmas. -/
theorem rat_floor_eq_floor (q : ℚ) : q.floor = ⌊q⌋ :=
  (Rat.floor_def' q).trans Rat.floor_def.symm

/-- C3.  EvolveSA::performance does not return the arithmetic mean of the
per-initial-condition scores: with one initial condition scoring 1/2 the
int-typed accumulator truncates the sum to 0 and the unsigned integer
division returns 0, whereas the mean is 1/2.  The zero-initial-condition
sentinel branch does return the fixed very poor score. -/
theorem performance_truncates_instead_of_mean :
    performance PerformanceType.dynamicsOnly 0 [1/2] = 0 ∧
    listMean [1/2] = 1/2 ∧
    performance PerformanceType.dynamicsOnly 0 [] = badPerf := by
  have hf : ((1:ℚ)/2).floor = 0 := by
    rw [rat_floor_eq_floor, Int.floor_eq_zero_iff]
    constructor <;> norm_num
  refine ⟨?_, ?_, ?_⟩
  · norm_num [performance, qSumFold, cppIntOfDouble, sizeTOfInt, hf]
  · norm_num [listMean]
  · rfl

/-- C4.  The GML round trip does not preserve node keys: saving a System
whose two nodes carry keys 0 and 1 and loading the result into a fresh
System yields nodes whose keys are 0 and 0, because the key fix-up loop of
openFromGML overwrites every node key with its never-incremented curKey
variable.  Counts and the other per-entity fields of this input survive
the trip. -/
theorem roundTripGML_clobbers_keys :
    c4Sys.nodes.map (fun nd => nd.key) = [0, 1] ∧
    (roundTripGML c4Sys).nodes.map (fun nd => nd.key) = [0, 0] ∧
    (roundTripGML c4Sys).nodes.length = c4Sys.nodes.length ∧
    (roundTripGML c4Sys).nodes.map (fun nd => nd.properties) =
      c4Sys.nodes.map (fun nd => nd.properties) := by
  refine ⟨rfl, rfl, rfl, rfl⟩

/-- C5 counterexample.  Registering a second descriptor under an identity
string that is already present does not make the registry map that string
to the newly supplied descriptor: std::map insert keeps the existing
entry, so the lookup still yields the first descriptor. -/
theorem addNodeDynamic_duplicate_not_overwritten :
    (addNodeDynamic c5Reg1 c5d2).reg.lookup c5d2.name = some c5d1 ∧
    c5d1 ≠ c5d2 ∧
    (addNodeDynamic c5Reg1 c5d2).reg.lookup c5d2.name ≠ some c5d2 := by
  refine ⟨rfl, by decide, by decide⟩

/-- C5 amended.  After registering a descriptor whose identity string is
already present, the registry is left unchanged, so the string still maps
to the originally registered descriptor (first registration wins); and in
every case registration raises the state width to the larger of the old
width and the descriptor's state count. -/
theorem addNodeDynamic_first_registration_wins (r : DynRegistry)
    (d : DynDescriptor) (h : (r.reg.lookup d.name).isSome = true) :
    (addNodeDynamic r d).reg = r.reg ∧
    (addNodeDynamic r d).statesWidth = max r.statesWidth d.states := by
  constructor
  · simp [addNodeDynamic, stdMapInsert, h]
  · show (if d.states > r.statesWidth then d.states else r.statesWidth) = _
    rcases Nat.lt_or_ge r.statesWidth d.states with hlt | hge
    · rw [if_pos hlt]
      exact (Nat.max_eq_right (Nat.le_of_lt hlt)).symm
    · rw [if_neg (Nat.not_lt.mpr hge)]
      exact (Nat.max_eq_left hge).symm

/-- C5 witness: the amended statement at the concrete duplicate
registration. -/
theorem addNodeDynamic_first_registration_wins_witness :
    (c5Reg1.reg.lookup c5d2.name).isSome = true ∧
    ((addNodeDynamic c5Reg1 c5d2).reg = c5Reg1.reg ∧
     (addNodeDynamic c5Reg1 c5d2).statesWidth = max c5Reg1.statesWidth c5d2.states) :=
  ⟨by decide, addNodeDynamic_first_registration_wins c5Reg1 c5d2 (by decide)⟩

/-- Helper for C6: with at least one registered sub-logger the fan-out
loop condition is always true, so no amount of fuel makes it return. -/
theorem fanOutFrom_nonzero_stuck (n : Nat) (hn : n ≠ 0) :
    ∀ (fuel i : Nat), fanOutFrom n fuel i = none := by
  intro fuel
  induction fuel with
  | zero => intro i; rfl
  | succ m ih => intro i; simp [fanOutFrom, hn, ih]

/-- C6.  A ChangeLogSet operation does not forward the call exactly once
to each registered sub-logger and return: with one registered sub-logger
the loop never terminates (its condition is the container size, which
stays nonzero), so for every fuel bound the call trace is still unfinished;
with zero sub-loggers the operation is indeed a no-op that returns at
once. -/
theorem changeLogSet_fanout_never_returns :
    (∀ fuel : Nat, changeLogSetCalls 1 fuel = none) ∧
    (∀ fuel : Nat, changeLogSetCalls 0 (fuel + 1) = some []) := by
  constructor
  · intro fuel
    exact fanOutFrom_nonzero_stuck 1 (by decide) fuel 0
  · intro fuel
    simp [changeLogSetCalls, fanOutFrom]

/-- C2.  The consecutive-no-accept streak does not increase by one per
zero-accept outer iteration, and the streak stopping condition does not
fire for thresholds of at least 1: after two consecutive outer iterations
with zero accepted trials the noChange variable (a C++ bool) still reads
as 1, not 2; and with the threshold configured to 1, a constant cooling
schedule and outer iterations that accept nothing, the cooling loop guard
stays true for every fuel bound, so the loop never terminates through the
streak condition although the claimed streak would exceed the threshold
after two iterations. -/
theorem noChange_saturates_at_one :
    noChangeInt (outerStep c2Config (outerStep c2Config c2St0)).noChange = 1 ∧
    (∀ fuel : Nat, evolveLoop c2ConfigZero fuel c2St0 = none) := by
  constructor
  · norm_num [outerStep, innerTrials, trial, acceptStep, c2Config, c2St0,
      noChangeInt]
  · have key : ∀ (fuel : Nat) (st : EvolveState Nat), st.temp = 1 →
        st.iteration = 0 → evolveLoop c2ConfigZero fuel st = none := by
      intro fuel
      induction fuel with
      | zero => intro st _ _; rfl
      | succ m ih =>
        intro st ht hi
        have hguard : noChangeInt st.noChange ≤ c2ConfigZero.acceptRunsNoChange ∧
            st.temp > c2ConfigZero.minTemp ∧
            st.iteration ≤ c2ConfigZero.maxIterations := by
          refine ⟨?_, ?_, ?_⟩
          · cases st.noChange <;> norm_num [noChangeInt, c2ConfigZero]
          · rw [ht]; norm_num [c2ConfigZero]
          · rw [hi]; norm_num [c2ConfigZero]
        have hstep : outerStep c2ConfigZero st = { st with noChange := true } := rfl
        rw [evolveLoop, if_pos hguard, hstep]
        exact ih _ ht hi
    intro fuel
    exact key fuel c2St0 rfl rfl

/-- C7.  Every one of the four simulation strategies, called with an
initial state vector whose length differs from the total state count,
reports the size-mismatch error and performs no work: no callback event is
emitted and the caller's vector is returned unchanged. -/
theorem simulate_size_mismatch_no_work
    (s : SysDyn) (initial : List ℚ) (tMaxN : Nat)
    (tMax stepSize epsAbs epsRel outputStep initialStep : ℚ)
    (fInteg : FixedStepType → ℚ → SysDyn → ℚ → List ℚ → List SimEvent × List ℚ)
    (cInteg aInteg : AdaptiveStepType → ℚ → ℚ → ℚ → SysDyn → ℚ → List ℚ →
      List SimEvent × List ℚ)
    (fStep : FixedStepType) (aStep1 aStep2 : AdaptiveStepType)
    (h : initial.length ≠ totalStatesD s) :
    simulateMap s tMaxN initial =
      { sizeError := true, events := [], final := initial } ∧
    simulateOdeFixed fInteg fStep stepSize s tMax initial =
      { sizeError := true, events := [], final := initial } ∧
    simulateOdeConst cInteg aStep1 epsAbs epsRel outputStep s tMax initial =
      { sizeError := true, events := [], final := initial } ∧
    simulateOdeAdaptive aInteg aStep2 epsAbs epsRel initialStep s tMax initial =
      { sizeError := true, events := [], final := initial } := by
  have h2 : initial.length ≠
      s.nodes.length * s.nodeStates + s.arcs.length * s.arcStates := h
  refine ⟨?_, ?_, ?_, ?_⟩
  · simp only [simulateMap]; rw [if_pos h2]
  · simp only [simulateOdeFixed]; rw [if_pos h]
  · simp only [simulateOdeConst]; rw [if_pos h]
  · simp only [simulateOdeAdaptive]; rw [if_pos h]

/-- C7 witness: the empty vector against a system with one single-state
node. -/
theorem simulate_size_mismatch_no_work_witness :
    (([] : List ℚ).length ≠ totalStatesD c7Sys) ∧
    (simulateMap c7Sys 3 [] =
      { sizeError := true, events := [], final := [] } ∧
     simulateOdeFixed (fun _ _ _ _ _ => ([], [])) FixedStepType.rk4 1 c7Sys
        10 [] = { sizeError := true, events := [], final := [] } ∧
     simulateOdeConst (fun _ _ _ _ _ _ _ => ([], []))
        AdaptiveStepType.rkCashKarp54 1 1 1 c7Sys 10 [] =
        { sizeError := true, events := [], final := [] } ∧
     simulateOdeAdaptive (fun _ _ _ _ _ _ _ => ([], []))
        AdaptiveStepType.rkDopri5 1 1 1 c7Sys 10 [] =
        { sizeError := true, events := [], final := [] }) :=
  ⟨by decide,
   simulate_size_mismatch_no_work c7Sys [] 3 10 1 1 1 1 1
     (fun _ _ _ _ _ => ([], [])) (fun _ _ _ _ _ _ _ => ([], []))
     (fun _ _ _ _ _ _ _ => ([], [])) FixedStepType.rk4
     AdaptiveStepType.rkCashKarp54 AdaptiveStepType.rkDopri5 (by decide)⟩

/-- C8.  With the connectivity requirement on, a trial whose mutated clone
has a weakly-connected-component count different from 1 is never accepted:
the accept flag comes back false and the acceptance step keeps the
incumbent, regardless of temperature, scores, the random draw and the
acceptance probability. -/
theorem trial_disconnected_never_accepted {G : Type} (c : SAConfig G)
    (temp : ℚ) (sys : G) (res : EvolveSAResult) (rndDraw : ℚ)
    (hconn : c.ensureWeaklyConnected = true)
    (hwcc : c.wcc (c.mutate sys) ≠ 1) :
    (trial c temp sys res rndDraw).2.a = false ∧
    (acceptStep sys (trial c temp sys res rndDraw)).1 = sys := by
  have ht : trial c temp sys res rndDraw =
      (c.mutate sys, { res with a := false }) := by
    simp only [trial]
    rw [if_pos ⟨hconn, hwcc⟩]
  rw [ht]
  exact ⟨rfl, by simp [acceptStep]⟩

/-- C8 witness: a mutation that always splits the graph into two weak
components while improving the score from 5 to 3. -/
theorem trial_disconnected_never_accepted_witness :
    (c8Config.ensureWeaklyConnected = true ∧
     c8Config.wcc (c8Config.mutate 0) ≠ 1) ∧
    ((trial c8Config 1 0 c1Res0 1).2.a = false ∧
     (acceptStep 0 (trial c8Config 1 0 c1Res0 1)).1 = 0) :=
  ⟨⟨by decide, by decide⟩,
   trial_disconnected_never_accepted c8Config 1 0 c1Res0 1 (by decide)
     (by decide)⟩

/-- Helper for C9: a System whose node width is zero and whose arcs
contribute no states leaves the output buffer untouched. -/
theorem sysEval_no_states (s : SysDyn) (h1 : s.nodeStates = 0)
    (h2 : s.arcs.length * s.arcStates = 0) (x dx : List ℚ) (t : ℚ) :
    sysEval s x dx t = dx := by
  have hn : ¬ s.nodeStates > 0 := by omega
  rcases Nat.mul_eq_zero.mp h2 with ha | hb
  · have ha2 : s.arcs = [] := List.length_eq_zero.mp ha
    simp [sysEval, hn, ha2]
  · have hb2 : ¬ s.arcStates > 0 := by omega
    simp [sysEval, hn, hb2]

/-- Helper for C9: when evaluation never changes the buffer, the stepping
loop emits one sample per step at the consecutive times and leaves both
buffers untouched. -/
theorem mapSteps_steady (s : SysDyn)
    (hs : ∀ x dx t, sysEval s x dx t = dx) (y : List ℚ) :
    ∀ n t, mapSteps s n t y y =
      ((List.range' t n).flatMap (fun k => emitSample y (k : ℚ)), y, y) := by
  intro n
  induction n with
  | zero => intro t; simp [mapSteps]
  | succ m ih =>
    intro t
    rw [mapSteps]
    by_cases hp : t % 2 = 0
    · rw [if_pos hp]
      simp only [hs, ih]
      simp [List.range'_succ, List.flatMap_cons]
    · rw [if_neg hp]
      simp only [hs, ih]
      simp [List.range'_succ, List.flatMap_cons]

/-- Helper for C9: observer calls of one emitted sample block. -/
theorem obsCalls_emit_append (y : List ℚ) (t : ℚ) (es : List SimEvent) :
    obsCalls (emitSample y t ++ es) = (y, t) :: obsCalls es := by
  simp [obsCalls, emitSample]

/-- Helper for C9: observer calls of a run of emitted sample blocks. -/
theorem obsCalls_flatMap (y : List ℚ) (l : List Nat) :
    obsCalls (l.flatMap fun k => emitSample y (k : ℚ)) =
      l.map fun k : Nat => (y, (k : ℚ)) := by
  induction l with
  | nil => rfl
  | cons a l ih =>
    rw [List.flatMap_cons, obsCalls_emit_append, ih, List.map_cons]

/-- C9.  Discrete-map simulation of a graph with one node and zero total
states, over any nonnegative integer horizon tMax, accepts the empty
state vector, leaves it unchanged, and invokes the observer exactly
tMax + 1 times with sample times 0, 1, ..., tMax. -/
theorem simulateMap_zero_states (s : SysDyn) (tMax : Nat)
    (h1 : s.nodes.length = 1) (h0 : totalStatesD s = 0) :
    simulateMap s tMax [] =
      { sizeError := false,
        events := (List.range (tMax + 1)).flatMap
          (fun k => emitSample [] (k : ℚ)),
        final := [] } ∧
    obsCalls (simulateMap s tMax []).events =
      (List.range (tMax + 1)).map (fun k : Nat => (([] : List ℚ), (k : ℚ))) ∧
    (obsCalls (simulateMap s tMax []).events).length = tMax + 1 := by
  unfold totalStatesD at h0
  rw [h1, one_mul] at h0
  obtain ⟨hns, harc⟩ := Nat.add_eq_zero.mp h0
  have hsteady := sysEval_no_states s hns harc
  have hsz : ([] : List ℚ).length =
      s.nodes.length * s.nodeStates + s.arcs.length * s.arcStates := by
    simp [hns, harc]
  have hMain : simulateMap s tMax [] =
      { sizeError := false,
        events := (List.range (tMax + 1)).flatMap
          (fun k => emitSample [] (k : ℚ)),
        final := [] } := by
    simp only [simulateMap]
    rw [if_neg (not_not_intro hsz), mapSteps_steady s hsteady [] tMax 1]
    simp [List.range_eq_range', List.range'_succ, List.flatMap_cons]
  refine ⟨hMain, ?_, ?_⟩
  · rw [hMain]
    simp [obsCalls_flatMap]
  · rw [hMain]
    simp [obsCalls_flatMap]

/-- C9 witness: one zero-state node, horizon 2. -/
theorem simulateMap_zero_states_witness :
    (c9Sys.nodes.length = 1 ∧ totalStatesD c9Sys = 0) ∧
    (simulateMap c9Sys 2 [] =
      { sizeError := false,
        events := (List.range 3).flatMap (fun k => emitSample [] (k : ℚ)),
        final := [] } ∧
     obsCalls (simulateMap c9Sys 2 []).events =
       (List.range 3).map (fun k : Nat => (([] : List ℚ), (k : ℚ))) ∧
     (obsCalls (simulateMap c9Sys 2 []).events).length = 3) :=
  ⟨⟨by decide, by decide⟩,
   simulateMap_zero_states c9Sys 2 (by decide) (by decide)⟩

/-- Helper for C10: refreshStateIDs never writes either validity flag. -/
theorem refresh_keeps_flags (s : SysV) :
    (refreshStateIDs s).validNodeIDs = s.validNodeIDs ∧
    (refreshStateIDs s).validArcIDs = s.validArcIDs := by
  cases hn : s.validNodeIDs <;> cases ha : s.validArcIDs <;>
    simp [refreshStateIDs, hn, ha]

/-- Helper for C10: refreshStateIDs recomputes exactly the maps whose
flags are false. -/
theorem refresh_recomputes (s : SysV) :
    (refreshStateIDs s).nodeIDs =
      (if s.validNodeIDs = false then renumber s.nodes else s.nodeIDs) ∧
    (refreshStateIDs s).arcIDs =
      (if s.validArcIDs = false then renumber s.arcs else s.arcIDs) := by
  cases hn : s.validNodeIDs <;> cases ha : s.validArcIDs <;>
    simp [refreshStateIDs, hn, ha]

/-- Helper for C10: no operation brings validStateIDs back to true. -/
theorem applyOp_keeps_invalid (s : SysV) (op : SysOp)
    (h : validStateIDs s = false) : validStateIDs (applyOp s op) = false := by
  cases op with
  | addNode => simp [applyOp, addNode, validStateIDs]
  | addArc => simp [applyOp, addArc, validStateIDs]
  | clear => simp [applyOp, clearSys, validStateIDs]
  | copySys src => simp [applyOp, copySystem, validStateIDs]
  | refresh =>
    have hf := refresh_keeps_flags s
    simp only [applyOp, validStateIDs, hf.1, hf.2]
    exact h

/-- Helper for C10: invalidity survives any operation sequence. -/
theorem applyOps_keeps_invalid (ops : List SysOp) : ∀ s : SysV,
    validStateIDs s = false → validStateIDs (applyOps s ops) = false := by
  induction ops with
  | nil => intro s h; exact h
  | cons op rest ih =>
    intro s h
    exact ih (applyOp s op) (applyOp_keeps_invalid s op h)

/-- Helper for C10: each structural mutation leaves validStateIDs false. -/
theorem structural_invalidates (s : SysV) (m : SysOp)
    (hm : m.structural = true) : validStateIDs (applyOp s m) = false := by
  cases m with
  | addNode => simp [applyOp, addNode, validStateIDs]
  | addArc => simp [applyOp, addArc, validStateIDs]
  | clear => simp [applyOp, clearSys, validStateIDs]
  | copySys src => simp [applyOp, copySystem, validStateIDs]
  | refresh => simp [SysOp.structural] at hm

/-- C10.  Once a structural mutation (addNode, addArc, clear, or a copy
into the System) has invalidated a state index, validStateIDs stays false
through every further sequence of operations; refreshStateIDs leaves both
validity flags untouched, and on the resulting state it recomputes the
dense numbering of every kind whose flag is false, so each later simulate
call re-runs the renumbering. -/
theorem stateIDs_validity_never_restored (s : SysV) (m : SysOp)
    (ops : List SysOp) (hm : m.structural = true) :
    validStateIDs (applyOp s m) = false ∧
    validStateIDs (applyOps (applyOp s m) ops) = false ∧
    (refreshStateIDs (applyOps (applyOp s m) ops)).validNodeIDs =
      (applyOps (applyOp s m) ops).validNodeIDs ∧
    (refreshStateIDs (applyOps (applyOp s m) ops)).validArcIDs =
      (applyOps (applyOp s m) ops).validArcIDs ∧
    (refreshStateIDs (applyOps (applyOp s m) ops)).nodeIDs =
      (if (applyOps (applyOp s m) ops).validNodeIDs = false
       then renumber (applyOps (applyOp s m) ops).nodes
       else (applyOps (applyOp s m) ops).nodeIDs) ∧
    (refreshStateIDs (applyOps (applyOp s m) ops)).arcIDs =
      (if (applyOps (applyOp s m) ops).validArcIDs = false
       then renumber (applyOps (applyOp s m) ops).arcs
       else (applyOps (applyOp s m) ops).arcIDs) := by
  have h1 := structural_invalidates s m hm
  exact ⟨h1, applyOps_keeps_invalid ops _ h1,
    (refresh_keeps_flags _).1, (refresh_keeps_flags _).2,
    (refresh_recomputes _).1, (refresh_recomputes _).2⟩

/-- C10 witness: addNode on a valid System, followed by a refresh, an
addArc and another refresh. -/
theorem stateIDs_validity_never_restored_witness :
    SysOp.addNode.structural = true ∧
    (validStateIDs (applyOp c10S0 SysOp.addNode) = false ∧
     validStateIDs (applyOps (applyOp c10S0 SysOp.addNode)
       [SysOp.refresh, SysOp.addArc, SysOp.refresh]) = false ∧
     (refreshStateIDs (applyOps (applyOp c10S0 SysOp.addNode)
        [SysOp.refresh, SysOp.addArc, SysOp.refresh])).validNodeIDs =
       (applyOps (applyOp c10S0 SysOp.addNode)
        [SysOp.refresh, SysOp.addArc, SysOp.refresh]).validNodeIDs ∧
     (refreshStateIDs (applyOps (applyOp c10S0 SysOp.addNode)
        [SysOp.refresh, SysOp.addArc, SysOp.refresh])).validArcIDs =
       (applyOps (applyOp c10S0 SysOp.addNode)
        [SysOp.refresh, SysOp.addArc, SysOp.refresh]).validArcIDs ∧
     (refreshStateIDs (applyOps (applyOp c10S0 SysOp.addNode)
        [SysOp.refresh, SysOp.addArc, SysOp.refresh])).nodeIDs =
       (if (applyOps (applyOp c10S0 SysOp.addNode)
             [SysOp.refresh, SysOp.addArc, SysOp.refresh]).validNodeIDs = false
        then renumber (applyOps (applyOp c10S0 SysOp.addNode)
             [SysOp.refresh, SysOp.addArc, SysOp.refresh]).nodes
        else (applyOps (applyOp c10S0 SysOp.addNode)
             [SysOp.refresh, SysOp.addArc, SysOp.refresh]).nodeIDs) ∧
     (refreshStateIDs (applyOps (applyOp c10S0 SysOp.addNode)
        [SysOp.refresh, SysOp.addArc, SysOp.refresh])).arcIDs =
       (if (applyOps (applyOp c10S0 SysOp.addNode)
             [SysOp.refresh, SysOp.addArc, SysOp.refresh]).validArcIDs = false
        then renumber (applyOps (applyOp c10S0 SysOp.addNode)
             [SysOp.refresh, SysOp.addArc, SysOp.refresh]).arcs
        else (applyOps (applyOp c10S0 SysOp.addNode)
             [SysOp.refresh, SysOp.addArc, SysOp.refresh]).arcIDs)) :=
  ⟨rfl,
   stateIDs_validity_never_restored c10S0 SysOp.addNode
     [SysOp.refresh, SysOp.addArc, SysOp.refresh] rfl⟩

end netevo
